import Mathlib

/-!
Verification of the `BluetoothTerminal` framed-messaging layer.

Shallow embedding of the JavaScript source (`BluetoothTerminal` class):
JS numbers that flow through bitwise operators are modelled with the
ECMAScript ToInt32 / ToUint32 / ToUint8 conversions made explicit over
`Nat`/`Int`; JS strings are `String`/`List Char` (one `Char` per code
unit, characters treated as atomic); JS values that may be strings,
numbers, `null`, `undefined` or booleans are the sum type `JsVal`;
code that can throw returns `Option` or a dedicated outcome type.
-/

namespace BluetoothTerminal

/-! ## JavaScript value model -/

/-- A JavaScript value as used by this program: string, (integral) number,
`null`, `undefined`, or boolean.  (`NaN` and non-integral numbers never
arise in the modelled code paths.) -/
inductive JsVal where
  | str (s : String)
  | num (n : Int)
  | null
  | undefined
  | bool (b : Bool)
deriving DecidableEq

/-- JS truthiness: `''`, `0`, `null`, `undefined` and `false` are falsy. -/
def jsFalsy : JsVal → Bool
  | .str s => s == ""
  | .num n => n == 0
  | .null => true
  | .undefined => true
  | .bool b => !b

/-- Decimal digits of a natural number, least significant first. -/
def natDigitsRev : Nat → List Char
  | 0 => []
  | n + 1 => Nat.digitChar ((n + 1) % 10) :: natDigitsRev ((n + 1) / 10)
decreasing_by exact Nat.div_lt_self (Nat.succ_pos n) (by omega)

/-- Decimal representation of a natural number (JS `Number.prototype.toString`). -/
def natRepr (n : Nat) : String := if n = 0 then "0" else String.mk (natDigitsRev n).reverse

/-- JS ToString for an integral number. -/
def jsNumToString (n : Int) : String :=
  if n < 0 then "-" ++ natRepr (-n).toNat else natRepr n.toNat

/-- JS ToString (`String(x)`). -/
def jsToString : JsVal → String
  | .str s => s
  | .num n => jsNumToString n
  | .null => "null"
  | .undefined => "undefined"
  | .bool b => if b then "true" else "false"

/-! ## 32-bit JavaScript bitwise semantics -/

/-- ECMAScript ToInt32 of a non-negative integer given by its bit pattern. -/
def jsToInt32 (m : Nat) : Int :=
  if m % 2 ^ 32 < 2 ^ 31 then ((m % 2 ^ 32 : Nat) : Int)
  else ((m % 2 ^ 32 : Nat) : Int) - 2 ^ 32

/-- Unsigned 32-bit pattern of an integer (ECMAScript ToUint32). -/
def jsUint32 (v : Int) : Nat := (v % (2 ^ 32 : Int)).toNat

/-- JS `a & m` for an integral `a` and a constant mask `m` (result is an int32). -/
def jsAnd (a : Int) (m : Nat) : Int := jsToInt32 (jsUint32 a &&& m % 2 ^ 32)

/-- JS `v >> k`: arithmetic (sign-propagating) right shift of an int32. -/
def jsShr (v : Int) (k : Nat) : Int := Int.fdiv (jsToInt32 (jsUint32 v)) (2 ^ k)

/-- ECMAScript ToUint8 — the conversion applied when a number is stored
into a `Uint8Array` element. -/
def toUint8 (v : Int) : Nat := (v % (256 : Int)).toNat

/-! ## Frame encoder (`_sendToDevice`, source lines 517-538)

```js
newData[0] = command;
newData[1] = (data & 0xFF000000) >> 24;
newData[2] = (data & 0x00FF0000) >> 16;
newData[3] = (data & 0x0000FF00) >> 8;
newData[4] = (data & 0xFF0000FF);
newData[5..8] = 0; newData[9] = 254; newData[10] = 10;
```
followed by `this._characteristic.writeValue(newData)`. -/

/-- The 11 bytes of the frame written by `_sendToDevice(command, data)`. -/
def sendToDeviceBytes (command : Nat) (data : Int) : List Nat :=
  [ command % 256,
    toUint8 (jsShr (jsAnd data 0xFF000000) 24),
    toUint8 (jsShr (jsAnd data 0x00FF0000) 16),
    toUint8 (jsShr (jsAnd data 0x0000FF00) 8),
    toUint8 (jsAnd data 0xFF0000FF),
    0, 0, 0, 0, 254, 10 ]

/-- Big-endian unsigned 32-bit interpretation of four payload bytes
(the reading the specification uses for reply payloads). -/
def beUnsigned32 (b1 b2 b3 b4 : Nat) : Nat :=
  b1 * 2 ^ 24 + b2 * 2 ^ 16 + b3 * 2 ^ 8 + b4

example : sendToDeviceBytes 21 1 = [21, 0, 0, 0, 1, 0, 0, 0, 0, 254, 10] := by decide

example : sendToDeviceBytes 42 2000 = [42, 0, 0, 7, 208, 0, 0, 0, 0, 254, 10] := by decide

example : sendToDeviceBytes 173 0xFEDCBA98 =
    [173, 0xFE, 0xDC, 0xBA, 0x98, 0, 0, 0, 0, 254, 10] := by decide

/-! ## Device state and the command dispatcher
(`_connectionDataReceive`, source lines 440-504) -/

/-- The mutable fields of the terminal touched by the inbound-data path:
`_receiveBuffer` (line 15), `_deviceId` (line 20), `_rfIdNumber` (line 21). -/
structure TerminalState where
  receiveBuffer : String
  deviceId : JsVal
  rfIdNumber : JsVal
deriving DecidableEq

/-- Constructor field values (lines 15, 20, 21). -/
def initialTerminalState : TerminalState :=
  { receiveBuffer := "", deviceId := .null, rfIdNumber := .null }

/-- `checkRFIDExists()` (lines 514-516): unconditionally `true`. -/
def checkRFIDExists : Bool := true

/-- `_connectionDataReceive(command, data, handsakeCommand)` (lines 440-504).
Returns the updated state and the list of frames written back through
`_sendToDevice` (in order of writing).  Branches `32..36` and `51` only log. -/
def connectionDataReceive (command : Nat) (data : JsVal) (handsakeCommand : Nat)
    (st : TerminalState) : TerminalState × List (List Nat) :=
  if handsakeCommand ≠ 253 then (st, [])
  else if command = 21 then
    let deviceFound := true
    ({ st with deviceId := data },
      if deviceFound then [sendToDeviceBytes command 1] else [sendToDeviceBytes command 0])
  else if command = 31 then
    ({ st with rfIdNumber := data },
      if !checkRFIDExists then [sendToDeviceBytes command 0] else [])
  else if command = 41 then (st, [sendToDeviceBytes command 1])
  else if command = 42 then (st, [sendToDeviceBytes command (2 * 1000)])
  else if command = 43 then (st, [sendToDeviceBytes command (1 * 100)])
  else if command = 44 then (st, [sendToDeviceBytes command (10 * 100)])
  else (st, [])

/-! ## Notification handler
(`_handleCharacteristicValueChanged`, source lines 384-438)

The handler reads bytes 0-9 of the notification with `getUint8` and always
dispatches them as a control frame; the text/reassembly block (lines 424-437)
is commented out in the source, so `_receiveBuffer` is never touched and
`receive` is never invoked. -/

/-- JS `t << k` for a byte `t` (ToInt32 of the shifted pattern). -/
def jsShl (a : Nat) (k : Nat) : Int := jsToInt32 (a <<< k)

/-- JS `t.toString(16)`: lowercase hexadecimal digits, no padding. -/
def hexByte (n : Nat) : String := String.mk (Nat.toDigits 16 n)

/-- The `total` value the handler passes to `_connectionDataReceive`
(lines 408-418): for command 21 with marker 253 the eight payload-area bytes
are concatenated as hex-digit strings; otherwise the first four are summed
as `(t1 << 24) + (t2 << 16) + (t3 << 8) + t4`. -/
def handlerTotal (bytes : List Nat) : JsVal :=
  let command := bytes.getD 0 0
  let handsakeCommand := bytes.getD 9 0
  if command = 21 ∧ handsakeCommand = 253 then
    .str (hexByte (bytes.getD 1 0) ++ hexByte (bytes.getD 2 0) ++ hexByte (bytes.getD 3 0) ++
      hexByte (bytes.getD 4 0) ++ hexByte (bytes.getD 5 0) ++ hexByte (bytes.getD 6 0) ++
      hexByte (bytes.getD 7 0) ++ hexByte (bytes.getD 8 0))
  else
    .num (jsShl (bytes.getD 1 0) 24 + jsShl (bytes.getD 2 0) 16 +
      jsShl (bytes.getD 3 0) 8 + (bytes.getD 4 0 : Int))

/-- `_handleCharacteristicValueChanged` on a notification of `bytes`.
Result: updated state, frames written back, and messages delivered to the
`receive` callback (always `[]`: the text path is commented out).
`none` models the `RangeError` thrown by `getUint8(9)` when the
notification has fewer than 10 bytes. -/
def handleCharacteristicValueChanged (bytes : List Nat) (st : TerminalState) :
    Option (TerminalState × List (List Nat) × List String) :=
  if 10 ≤ bytes.length then
    let r := connectionDataReceive (bytes.getD 0 0) (handlerTotal bytes) (bytes.getD 9 0) st
    some (r.1, r.2, [])
  else none

example :
    handlerTotal [21, 0, 0, 0, 1, 0, 0, 0, 0, 253, 10] = .str "00010000" := by decide

/-! ## Chunk splitter (`_splitByLength`, source lines 567-569)

```js
static _splitByLength(string, length) {
  return string.match(new RegExp('(.|[\r\n]){1,' + length + '}', 'g'));
}
```
The character class `(.|[\r\n])` matches every code unit except the line
terminators U+2028 and U+2029 (`.` excludes all four line terminators, the
alternative re-admits `\r` and `\n`).  Global greedy matching therefore
skips U+2028/U+2029 and cuts the remaining runs into pieces of at most
`length` characters; `match` returns `null` (here `none`) when there is no
match at all, and the `{1,0}` quantifier for `length = 0` is a syntax
error (also `none`). -/

/-- Does `(.|[\r\n])` match this character? -/
def matchableChar (c : Char) : Bool := c ≠ '\u2028' && c ≠ '\u2029'

/-- Greedily extend the current match by up to `l` further matchable
characters; returns the consumed characters and the rest. -/
def takeChunk : Nat → List Char → List Char × List Char
  | _, [] => ([], [])
  | 0, rest => ([], rest)
  | l + 1, c :: rest =>
    if matchableChar c then
      let p := takeChunk l rest
      (c :: p.1, p.2)
    else ([], c :: rest)

theorem takeChunk_snd_length (l : Nat) (xs : List Char) :
    (takeChunk l xs).2.length ≤ xs.length := by
  induction xs generalizing l with
  | nil => cases l <;> simp [takeChunk]
  | cons c rest ih =>
    cases l with
    | zero => simp [takeChunk]
    | succ l =>
      simp only [takeChunk]
      by_cases h : matchableChar c
      · simpa [h] using Nat.le_succ_of_le (ih l)
      · simp [h]

/-- Matching loop with explicit fuel (structural recursion; the fuel is
always instantiated with the input length, which bounds the number of
matching attempts). -/
def splitChunksGo (l : Nat) : Nat → List Char → List (List Char)
  | 0, _ => []
  | _, [] => []
  | fuel + 1, c :: rest =>
    if matchableChar c then
      (c :: (takeChunk l rest).1) :: splitChunksGo l fuel (takeChunk l rest).2
    else splitChunksGo l fuel rest

/-- All matches of the global regex, on strings as `List Char`; `l + 1` is
the quantifier bound (`{1,l+1}`). -/
def splitChunksAux (l : Nat) (s : List Char) : List (List Char) :=
  splitChunksGo l s.length s

/-- `_splitByLength(s, L)`: `none` models both the invalid `{1,0}`
quantifier (for `L = 0`) and `match` returning `null` (no match). -/
def splitByLength (s : List Char) (L : Nat) : Option (List (List Char)) :=
  match L with
  | 0 => none
  | l + 1 =>
    let chunks := splitChunksAux l s
    if chunks.isEmpty then none else some chunks

example : splitByLength "AB\n".toList 20 = some [['A', 'B', '\n']] := by decide

example : splitByLength "abcde".toList 2 = some [['a', 'b'], ['c', 'd'], ['e']] := by decide

example : splitByLength [] 20 = none := by decide

example : splitByLength ['a', '\u2028', 'b'] 20 = some [['a'], ['b']] := by decide

/-! ## Reassembly -/

/-- Modelled from the spec: the live source has no executable
`ReassemblyBuffer` — the only text-reassembly code in the repository is the
commented-out block at lines 425-437 of `_handleCharacteristicValueChanged`.
Per spec §4.3, feeding one character appends it to the buffer unless it is
the receive separator, in which case the buffer content is emitted as a
complete message (trimmed of the separator) and the buffer resets. -/
def reassemblyFeedChar (sep : Char) (st : List Char × List (List Char)) (c : Char) :
    List Char × List (List Char) :=
  if c = sep then ([], st.2 ++ [st.1]) else (st.1 ++ [c], st.2)

/-- Modelled from the spec: feed a whole character stream into an initially
empty reassembly buffer; result is the final buffer and the emitted
messages, in order. -/
def reassemble (sep : Char) (input : List Char) : List Char × List (List Char) :=
  input.foldl (reassemblyFeedChar sep) ([], [])

example : reassemble '\n' ['h', 'i', '\n'] = ([], [['h', 'i']]) := by decide

/-! ## `send` (source lines 150-190) -/

/-- The coercion `String(data || '')` applied at the top of `send` (line 152). -/
def sendCoerce (x : JsVal) : String :=
  if jsFalsy x then "" else jsToString x

/-- Observable outcome of a `send(data)` call, up to the start of the write
chain (the chain itself is the subject of `writeChain` below). -/
inductive SendOutcome where
  | validationError
  | disconnectedError
  | syncThrow
  | writeChainStarted (chunks : List (List Char))
deriving DecidableEq

/-- `send(data)` (lines 150-190): coerce with `String(data || '')`; reject
`'Data must be not empty'` if the result is empty; append the send
separator; split into chunks of at most `_maxCharacteristicValueLength`
(20, line 16); reject `'There is no connected device'` if
`this._characteristic` is `null`; otherwise begin the chunk-write chain.
(`syncThrow` covers the `chunks[0]` access when `match` returned `null`,
impossible for inputs whose characters the regex matches.) -/
def send (x : JsVal) (hasCharacteristic : Bool) (sendSeparator : Char) : SendOutcome :=
  if sendCoerce x = "" then .validationError
  else if !hasCharacteristic then .disconnectedError
  else
    match splitByLength ((sendCoerce x).toList ++ [sendSeparator]) 20 with
    | none => .syncThrow
    | some cs => .writeChainStarted cs

example : send (.str "AB") true '\n' = .writeChainStarted [['A', 'B', '\n']] := by decide

example : send (.str "") true '\n' = .validationError := by decide

example : send .null true '\n' = .validationError := by decide

example : send (.num 0) true '\n' = .validationError := by decide

/-! ## The connect sequence (`connect` / `_connectToDevice` /
`_requestBluetoothDevice`, source lines 91-93, 210-218, 251-277)

```js
_connectToDevice(device) {
  return (device ? Promise.resolve(device) : this._requestBluetoothDevice()).
  then((device) => this._connectDeviceAndCacheCharacteristic(device)).
  then((characteristic) => this._startNotifications(characteristic)).
  catch((error) => { this._log(error); return Promise.reject(error); });
}
_requestBluetoothDevice() {
  ...
  try {
    return navigator.bluetooth.requestDevice({...}).then((device) => {...});
  }
  catch(ex){ this._log(ex); }      // <- swallows, falls through: returns undefined
}
```
The environment-dependent behaviour of `navigator.bluetooth.requestDevice`
and of the remaining connect steps are inputs of the model. -/

/-- How the `navigator.bluetooth.requestDevice(...)` call behaves:
it can throw synchronously (e.g. the Web Bluetooth API is unavailable),
return a promise that rejects (e.g. the user dismissed the chooser),
or return a promise that resolves with a device. -/
inductive RequestDeviceOutcome where
  | syncThrow (e : String)
  | rejects (e : String)
  | resolves
deriving DecidableEq

/-- What `_requestBluetoothDevice()` returns to its caller. -/
inductive RequestResult where
  | undef
  | promiseRejected (e : String)
  | promiseResolved
deriving DecidableEq

/-- `_requestBluetoothDevice` (lines 251-277): the `try`/`catch` wraps the
whole `return` statement, so a synchronous throw is caught, logged, and
the function falls off the end returning `undefined`; a rejected request
promise flows through unchanged. -/
def requestBluetoothDevice : RequestDeviceOutcome → RequestResult
  | .syncThrow _ => .undef
  | .rejects e => .promiseRejected e
  | .resolves => .promiseResolved

/-- What a `connect()` call delivers to its caller. -/
inductive ConnectResult where
  | syncThrow (e : String)
  | rejected (e : String)
  | resolved
deriving DecidableEq

/-- `_connectToDevice(null)` — the path taken by `connect()` when no device
is remembered.  `laterFailure` abstracts the remaining steps of the chain
(GATT connect, service/characteristic discovery, `startNotifications`):
`none` means they all succeed, `some e` that one of them fails with `e`.
Evaluating `.then` on the `undefined` returned after a swallowed
synchronous throw raises a `TypeError` inside `connect()` itself. -/
def connectToDevice (request : RequestDeviceOutcome) (laterFailure : Option String) :
    ConnectResult :=
  match requestBluetoothDevice request with
  | .undef => .syncThrow "TypeError: undefined has no method then"
  | .promiseRejected e => .rejected e
  | .promiseResolved =>
    match laterFailure with
    | some e => .rejected e
    | none => .resolved

/-- `connect()` (lines 91-93) with no remembered device (`this._device`
is `null` until a device chooser has succeeded). -/
def connect (request : RequestDeviceOutcome) (laterFailure : Option String) : ConnectResult :=
  connectToDevice request laterFailure

/-! ## The chunk-write chain of `send` (source lines 170-189)

```js
let promise = this._writeToCharacteristic(this._characteristic, chunks[0]);
for (let i = 1; i < chunks.length; i++) {
  promise = promise.then(() => new Promise((resolve, reject) => {
    if (!this._characteristic) { reject(new Error('Device has been disconnected')); }
    this._writeToCharacteristic(this._characteristic, chunks[i]).then(resolve).catch(reject);
  }));
}
return promise;
```
Each follow-up chunk runs only when the previous write's promise has
resolved; if `this._characteristic` is `null` at that point the step
rejects (the stray write attempt on `null` throws inside the already
settled executor and is discarded), and no later chunk runs. -/

/-- Result of the chained write promise returned by `send`. -/
inductive ChainResult where
  | resolved
  | rejectedDisconnected
  | rejectedWrite (i : Nat)
deriving DecidableEq

/-- Steps `i, i+1, ...` of the chain, `k` chunks still to write, assuming
the previous step's write resolved.  `charPresent i` tells whether
`this._characteristic` is still non-null when step `i` runs; `writeOk i`
whether the transport write of chunk `i` resolves.  Returns the indices of
the chunks actually handed to the transport, in order, and the final fate
of the chain. -/
def chainFrom (charPresent writeOk : Nat → Bool) : Nat → Nat → List Nat × ChainResult
  | 0, _ => ([], .resolved)
  | k + 1, i =>
    if charPresent i then
      if writeOk i then
        let r := chainFrom charPresent writeOk k (i + 1)
        (i :: r.1, r.2)
      else ([i], .rejectedWrite i)
    else ([], .rejectedDisconnected)

/-- The whole chain for `n` chunks: chunk 0 is written immediately
(`send` has just checked that the characteristic is non-null); chunks
`1..n-1` are chained. -/
def writeChain (charPresent writeOk : Nat → Bool) (n : Nat) : List Nat × ChainResult :=
  match n with
  | 0 => ([], .resolved)
  | k + 1 =>
    if writeOk 0 then
      let r := chainFrom charPresent writeOk k 1
      (0 :: r.1, r.2)
    else ([0], .rejectedWrite 0)

example :
    writeChain (fun i => decide (i < 2)) (fun _ => true) 4 =
      ([0, 1], .rejectedDisconnected) := by decide

example : writeChain (fun _ => true) (fun _ => true) 3 = ([0, 1, 2], .resolved) := by decide

/-! ## Lemmas: byte extraction performed by `_sendToDevice` -/

theorem land_byteMask (p k : Nat) :
    p &&& (2 ^ 8 - 1) * 2 ^ k = p / 2 ^ k % 2 ^ 8 * 2 ^ k := by
  apply Nat.eq_of_testBit_eq
  intro i
  rw [Nat.testBit_and, Nat.mul_comm ((2 : Nat) ^ 8 - 1) (2 ^ k),
    Nat.mul_comm (p / 2 ^ k % 2 ^ 8) (2 ^ k), Nat.testBit_mul_pow_two,
    Nat.testBit_mul_pow_two, Nat.testBit_two_pow_sub_one, Nat.testBit_mod_two_pow,
    ← Nat.shiftRight_eq_div_pow, Nat.testBit_shiftRight]
  by_cases h : k ≤ i
  · have hki : k + (i - k) = i := by omega
    simp [ge_iff_le, h, hki, Bool.and_comm, Bool.and_left_comm]
  · simp [ge_iff_le, h]

theorem land_FF000000 (p : Nat) : p &&& 0xFF000000 = p / 2 ^ 24 % 256 * 2 ^ 24 := by
  have h := land_byteMask p 24
  norm_num at h
  exact h

theorem land_00FF0000 (p : Nat) : p &&& 0x00FF0000 = p / 2 ^ 16 % 256 * 2 ^ 16 := by
  have h := land_byteMask p 16
  norm_num at h
  exact h

theorem land_0000FF00 (p : Nat) : p &&& 0x0000FF00 = p / 2 ^ 8 % 256 * 2 ^ 8 := by
  have h := land_byteMask p 8
  norm_num at h
  exact h

theorem jsAnd_natCast (p m : Nat) (hp : p < 2 ^ 32) (hm : m < 2 ^ 32) :
    jsAnd (p : Int) m = jsToInt32 (p &&& m) := by
  unfold jsAnd jsUint32
  congr 1
  have h1 : ((p : Int) % 2 ^ 32).toNat = p := by omega
  have h2 : m % 2 ^ 32 = m := Nat.mod_eq_of_lt hm
  rw [h1, h2]

theorem toUint8_jsToInt32 (m : Nat) : toUint8 (jsToInt32 m) = m % 256 := by
  unfold toUint8 jsToInt32
  split_ifs <;> omega

theorem byte_of_masked_small (b k : Nat) (hb : b < 256) (hsmall : b * 2 ^ k < 2 ^ 31) :
    toUint8 (jsShr (jsToInt32 (b * 2 ^ k)) k) = b := by
  have hlt32 : b * 2 ^ k < 2 ^ 32 := by
    calc b * 2 ^ k < 2 ^ 31 := hsmall
    _ < 2 ^ 32 := by norm_num
  have hmod : b * 2 ^ k % 2 ^ 32 = b * 2 ^ k := Nat.mod_eq_of_lt hlt32
  have h1 : jsToInt32 (b * 2 ^ k) = ((b * 2 ^ k : Nat) : Int) := by
    unfold jsToInt32
    rw [hmod, if_pos hsmall]
  rw [h1]
  have h2 : jsUint32 ((b * 2 ^ k : Nat) : Int) = b * 2 ^ k := by
    unfold jsUint32
    omega
  unfold jsShr
  rw [h2, h1]
  have h3 : ((b * 2 ^ k : Nat) : Int) = (b : Int) * (2 : Int) ^ k := by push_cast; ring
  rw [h3, Int.mul_fdiv_cancel _ (by positivity)]
  unfold toUint8
  omega

theorem byte_of_masked24 (b : Nat) (hb : b < 256) :
    toUint8 (jsShr (jsToInt32 (b * 2 ^ 24)) 24) = b := by
  by_cases hcase : b < 128
  · exact byte_of_masked_small b 24 hb (by omega)
  · have hlt32 : b * 2 ^ 24 < 2 ^ 32 := by omega
    have hge31 : 2 ^ 31 ≤ b * 2 ^ 24 := by omega
    have hmod : b * 2 ^ 24 % 2 ^ 32 = b * 2 ^ 24 := Nat.mod_eq_of_lt hlt32
    have h1 : jsToInt32 (b * 2 ^ 24) = ((b * 2 ^ 24 : Nat) : Int) - 2 ^ 32 := by
      unfold jsToInt32
      rw [hmod, if_neg (by omega)]
    rw [h1]
    have h2 : jsUint32 (((b * 2 ^ 24 : Nat) : Int) - 2 ^ 32) = b * 2 ^ 24 := by
      unfold jsUint32
      omega
    unfold jsShr
    rw [h2, h1]
    have h3 : ((b * 2 ^ 24 : Nat) : Int) - 2 ^ 32 = ((b : Int) - 256) * (2 : Int) ^ 24 := by
      push_cast; ring
    rw [h3, Int.mul_fdiv_cancel _ (by positivity)]
    unfold toUint8
    omega

theorem sendTo_byte1 (p : Nat) (hp : p < 2 ^ 32) :
    toUint8 (jsShr (jsAnd (p : Int) 0xFF000000) 24) = p / 2 ^ 24 % 256 := by
  rw [jsAnd_natCast p 0xFF000000 hp (by norm_num), land_FF000000]
  exact byte_of_masked24 _ (Nat.mod_lt _ (by norm_num))

theorem sendTo_byte2 (p : Nat) (hp : p < 2 ^ 32) :
    toUint8 (jsShr (jsAnd (p : Int) 0x00FF0000) 16) = p / 2 ^ 16 % 256 := by
  rw [jsAnd_natCast p 0x00FF0000 hp (by norm_num), land_00FF0000]
  have hb : p / 2 ^ 16 % 256 < 256 := Nat.mod_lt _ (by norm_num)
  exact byte_of_masked_small _ 16 hb (by omega)

theorem sendTo_byte3 (p : Nat) (hp : p < 2 ^ 32) :
    toUint8 (jsShr (jsAnd (p : Int) 0x0000FF00) 8) = p / 2 ^ 8 % 256 := by
  rw [jsAnd_natCast p 0x0000FF00 hp (by norm_num), land_0000FF00]
  have hb : p / 2 ^ 8 % 256 < 256 := Nat.mod_lt _ (by norm_num)
  exact byte_of_masked_small _ 8 hb (by omega)

theorem sendTo_byte4 (p : Nat) (hp : p < 2 ^ 32) :
    toUint8 (jsAnd (p : Int) 0xFF0000FF) = p % 256 := by
  rw [jsAnd_natCast p 0xFF0000FF hp (by norm_num), toUint8_jsToInt32]
  have e1 := Nat.and_pow_two_sub_one_eq_mod (p &&& 0xFF0000FF) 8
  have e2 := Nat.and_pow_two_sub_one_eq_mod p 8
  norm_num at e1 e2
  rw [← e1, Nat.and_assoc, (by decide : (0xFF0000FF &&& 255 : Nat) = 255), e2]

/-! ## Lemmas: chunk splitter and reassembly -/

theorem takeChunk_eq_take_drop (l : Nat) (xs : List Char) (h : ∀ c ∈ xs, matchableChar c) :
    takeChunk l xs = (xs.take l, xs.drop l) := by
  induction xs generalizing l with
  | nil => cases l <;> simp [takeChunk]
  | cons c rest ih =>
    cases l with
    | zero => simp [takeChunk]
    | succ l =>
      have hc : matchableChar c := h c (by simp)
      simp only [takeChunk, hc, if_true]
      rw [ih l (fun d hd => h d (by simp [hd]))]
      simp

theorem splitChunksGo_spec (l : Nat) :
    ∀ fuel (s : List Char), s.length ≤ fuel → (∀ c ∈ s, matchableChar c) →
      (splitChunksGo l fuel s).flatten = s ∧
      (∀ ch ∈ splitChunksGo l fuel s, ch.length ≤ l + 1) ∧
      (s ≠ [] → splitChunksGo l fuel s ≠ []) := by
  intro fuel
  induction fuel with
  | zero =>
    intro s hlen _
    have hs : s = [] := List.eq_nil_of_length_eq_zero (Nat.le_zero.mp hlen)
    subst hs
    simp [splitChunksGo]
  | succ fuel ih =>
    intro s hlen hm
    cases s with
    | nil => simp [splitChunksGo]
    | cons c rest =>
      have hc : matchableChar c := hm c (by simp)
      have hrest : ∀ d ∈ rest, matchableChar d := fun d hd => hm d (by simp [hd])
      have htc : takeChunk l rest = (rest.take l, rest.drop l) :=
        takeChunk_eq_take_drop l rest hrest
      have hdroplen : (rest.drop l).length ≤ fuel := by
        simp only [List.length_drop]
        simp only [List.length_cons] at hlen
        omega
      have hdropm : ∀ d ∈ rest.drop l, matchableChar d :=
        fun d hd => hrest d (List.mem_of_mem_drop hd)
      obtain ⟨ihj, ihlen, _⟩ := ih (rest.drop l) hdroplen hdropm
      simp only [splitChunksGo, hc, if_true, htc]
      refine ⟨?_, ?_, ?_⟩
      · simp [ihj]
      · intro ch hch
        rcases List.mem_cons.mp hch with hceq | hch2
        · subst hceq
          simp only [List.length_cons, List.length_take]
          omega
        · exact ihlen ch hch2
      · intro _
        simp


theorem splitByLength_spec (s : List Char) (L : Nat) (hL : 1 ≤ L) (hs : s ≠ [])
    (hm : ∀ c ∈ s, matchableChar c) :
    ∃ chunks, splitByLength s L = some chunks ∧ chunks.flatten = s ∧
      ∀ ch ∈ chunks, ch.length ≤ L := by
  obtain ⟨l, rfl⟩ : ∃ l, L = l + 1 := ⟨L - 1, by omega⟩
  obtain ⟨hjoin, hlen, hne⟩ := splitChunksGo_spec l s.length s (Nat.le_refl _) hm
  refine ⟨splitChunksAux l s, ?_, hjoin, hlen⟩
  have hne2 : (splitChunksGo l s.length s).isEmpty = false :=
    List.isEmpty_eq_false.mpr (hne hs)
  show (if (splitChunksGo l s.length s).isEmpty then none
    else some (splitChunksGo l s.length s)) = some (splitChunksAux l s)
  rw [hne2]
  rfl

theorem reassemble_foldl_no_sep (sep : Char) (M : List Char) (h : sep ∉ M)
    (buf : List Char) (out : List (List Char)) :
    M.foldl (reassemblyFeedChar sep) (buf, out) = (buf ++ M, out) := by
  induction M generalizing buf with
  | nil => simp
  | cons c rest ih =>
    have hc : ¬ c = sep := fun hcon => h (hcon ▸ List.mem_cons_self c rest)
    have hrest : sep ∉ rest := fun hcon => h (List.mem_cons_of_mem c hcon)
    simp only [List.foldl_cons, reassemblyFeedChar, if_neg hc]
    rw [ih hrest (buf ++ [c])]
    simp

theorem reassemble_roundtrip (sep : Char) (M : List Char) (h : sep ∉ M) :
    reassemble sep (M ++ [sep]) = ([], [M]) := by
  unfold reassemble
  rw [List.foldl_append, reassemble_foldl_no_sep sep M h [] []]
  simp [reassemblyFeedChar]

/-! ## Lemmas: coercion to string -/

theorem natRepr_ne_empty (n : Nat) : natRepr n ≠ "" := by
  unfold natRepr
  split_ifs with h
  · decide
  · intro hcon
    have hdata : (natDigitsRev n).reverse = [] := congrArg String.data hcon
    have h2 : natDigitsRev n = [] := by simpa using hdata
    cases n with
    | zero => exact h rfl
    | succ m => simp [natDigitsRev] at h2

theorem jsToString_ne_empty (x : JsVal) (h : jsFalsy x = false) : jsToString x ≠ "" := by
  cases x with
  | str s =>
    simp only [jsFalsy, beq_iff_eq] at h
    simpa [jsToString] using h
  | num n =>
    simp only [jsToString, jsNumToString]
    split_ifs with hneg
    · intro hcon
      have hdata : ('-' :: (natRepr (-n).toNat).data) = ([] : List Char) := by
        simpa [String.append] using congrArg String.data hcon
      simp at hdata
    · exact natRepr_ne_empty n.toNat
  | null => simp [jsFalsy] at h
  | undefined => simp [jsFalsy] at h
  | bool b =>
    cases b with
    | false => simp [jsFalsy] at h
    | true => simp [jsToString]

theorem sendCoerce_empty_iff (x : JsVal) : sendCoerce x = "" ↔ jsFalsy x = true := by
  unfold sendCoerce
  by_cases h : jsFalsy x
  · simp [h]
  · simp only [h, if_false, Bool.false_eq_true, iff_false]
    exact jsToString_ne_empty x (by simpa using h)

/-! ## Lemmas: the chunk-write chain -/

theorem chainFrom_shape (cp wo : Nat → Bool) :
    ∀ k i, ∃ t, t ≤ k ∧ (chainFrom cp wo k i).1 = List.range' i t ∧
      ∀ s, i ≤ s → s + 1 < i + t → wo s = true := by
  intro k
  induction k with
  | zero => exact fun i => ⟨0, Nat.le_refl 0, rfl, fun s _ h => by omega⟩
  | succ k ih =>
    intro i
    by_cases hcp : cp i
    · by_cases hwo : wo i
      · obtain ⟨t, ht, hr, hwos⟩ := ih (i + 1)
        refine ⟨t + 1, by omega, ?_, ?_⟩
        · simp only [chainFrom, hcp, hwo, if_true]
          rw [List.range'_succ, hr]
        · intro s hs hlt
          rcases Nat.eq_or_lt_of_le hs with hse | hsl
          · exact hse ▸ hwo
          · exact hwos s hsl (by omega)
      · refine ⟨1, by omega, ?_, fun s hs hlt => by omega⟩
        simp [chainFrom, hcp, hwo, List.range'_succ]
    · refine ⟨0, by omega, ?_, fun s hs hlt => by omega⟩
      simp [chainFrom, hcp]

theorem chainFrom_disconnect (cp wo : Nat → Bool) :
    ∀ k i j, i ≤ j → j < i + k → (∀ m, i ≤ m → m < j → cp m = true ∧ wo m = true) →
      cp j = false →
      chainFrom cp wo k i = (List.range' i (j - i), ChainResult.rejectedDisconnected) := by
  intro k
  induction k with
  | zero => intro i j h1 h2 _ _; omega
  | succ k ih =>
    intro i j h1 h2 hprev hcpj
    rcases Nat.eq_or_lt_of_le h1 with heq | hlt
    · subst heq
      have hz : i - i = 0 := by omega
      simp [chainFrom, hcpj, hz]
    · obtain ⟨hcpi, hwoi⟩ := hprev i (Nat.le_refl i) hlt
      have hrec := ih (i + 1) j hlt (by omega)
        (fun m hm1 hm2 => hprev m (by omega) hm2) hcpj
      simp only [chainFrom, hcpi, hwoi, if_true, hrec]
      have hji : j - i = (j - (i + 1)) + 1 := by omega
      rw [hji, List.range'_succ]

theorem writeChain_shape (cp wo : Nat → Bool) (n : Nat) :
    ∃ t, t ≤ n ∧ (writeChain cp wo n).1 = List.range t ∧
      ∀ s, s + 1 < t → wo s = true := by
  cases n with
  | zero => exact ⟨0, Nat.le_refl 0, rfl, fun s h => by omega⟩
  | succ k =>
    by_cases hwo : wo 0
    · obtain ⟨t, ht, hr, hwos⟩ := chainFrom_shape cp wo k 1
      refine ⟨t + 1, by omega, ?_, ?_⟩
      · simp only [writeChain, hwo, if_true]
        rw [List.range_eq_range', List.range'_succ, hr]
      · intro s hlt
        cases s with
        | zero => exact hwo
        | succ s => exact hwos (s + 1) (by omega) (by omega)
    · refine ⟨1, by omega, ?_, fun s h => by omega⟩
      simp [writeChain, hwo, List.range_eq_range', List.range'_succ]

theorem writeChain_disconnect_core (cp wo : Nat → Bool) (n j : Nat)
    (hj : 1 ≤ j) (hjn : j < n)
    (hprev : ∀ m, m < j → 1 ≤ m → cp m = true ∧ wo m = true)
    (hw0 : wo 0 = true) (hcpj : cp j = false) :
    writeChain cp wo n = (List.range j, ChainResult.rejectedDisconnected) := by
  obtain ⟨k, rfl⟩ : ∃ k, n = k + 1 := ⟨n - 1, by omega⟩
  have hrec := chainFrom_disconnect cp wo k 1 j hj (by omega)
    (fun m hm1 hm2 => hprev m hm2 hm1) hcpj
  simp only [writeChain, hw0, if_true, hrec]
  have hj1 : j = (j - 1) + 1 := by omega
  rw [List.range_eq_range', hj1, List.range'_succ]
  simp

end BluetoothTerminal

namespace BluetoothTerminal

/-! ## Claim theorems -/

/-- C1 (amended): feeding the control frame bytes `[21,0,0,0,1,0,0,0,0,253,10]`
to the dispatcher pipeline stores the hex-digit string `"00010000"`
(concatenation of `toString(16)` of the eight payload-area bytes) as
`_deviceId` — not the number 1 — and writes back exactly one frame with
command byte 21, 4-byte big-endian payload 1, marker 254, terminator 10. -/
theorem handle_handshake_stores_hex_id :
    handleCharacteristicValueChanged [21, 0, 0, 0, 1, 0, 0, 0, 0, 253, 10]
      initialTerminalState =
      some ({ initialTerminalState with deviceId := JsVal.str "00010000" },
        [[21, 0, 0, 0, 1, 0, 0, 0, 0, 254, 10]], []) := by decide

/-- C1 counterexample: on those bytes the stored `_deviceId` is the string
`"00010000"`, which is not the number 1 claimed. -/
theorem handle_handshake_deviceId_not_num_one :
    ((handleCharacteristicValueChanged [21, 0, 0, 0, 1, 0, 0, 0, 0, 253, 10]
      initialTerminalState).map fun r => r.1.deviceId) = some (JsVal.str "00010000") ∧
    some (JsVal.str "00010000") ≠ some (JsVal.num 1) := by decide

/-- C2 (amended): every inbound notification with at least 10 bytes —
whatever its length — is decoded as a control frame (bytes 0, 1-8 and 9 read
by `getUint8`) and dispatched to `_connectionDataReceive`; no bytes are ever
treated as text, the reassembly buffer is never fed, and the `receive`
callback is never invoked (the delivered-message list is always empty). -/
theorem handle_always_dispatches_control (bytes : List Nat) (st : TerminalState)
    (h : 10 ≤ bytes.length) :
    handleCharacteristicValueChanged bytes st =
      some ((connectionDataReceive (bytes.getD 0 0) (handlerTotal bytes) (bytes.getD 9 0) st).1,
        (connectionDataReceive (bytes.getD 0 0) (handlerTotal bytes) (bytes.getD 9 0) st).2,
        []) := by
  unfold handleCharacteristicValueChanged
  rw [if_pos h]

/-- C2 witness: a 10-byte notification (length different from 11) is still
dispatched as a control frame, with no text message delivered. -/
theorem handle_always_dispatches_control_witness :
    10 ≤ ([41, 0, 0, 0, 0, 0, 0, 0, 0, 253] : List Nat).length ∧
    handleCharacteristicValueChanged [41, 0, 0, 0, 0, 0, 0, 0, 0, 253] initialTerminalState =
      some (initialTerminalState, [[41, 0, 0, 0, 1, 0, 0, 0, 0, 254, 10]], []) :=
  ⟨by decide, by
    rw [handle_always_dispatches_control _ initialTerminalState (by decide)]
    decide⟩

/-- C2 counterexample: the three text bytes `"h","i","\n"` deliver no message
at all (`getUint8(9)` throws), and a notification whose length differs from
the control-frame length (10 bytes here) is dispatched as a control frame
rather than fed to any reassembly buffer. -/
theorem handle_no_text_path :
    handleCharacteristicValueChanged [104, 105, 10] initialTerminalState = none ∧
    handleCharacteristicValueChanged [65, 0, 0, 0, 0, 0, 0, 0, 0, 253] initialTerminalState =
      some (initialTerminalState, [], []) := by decide

/-- C3: for every command byte `c` and payload `p < 2^32`, the frame built by
`_sendToDevice(c, p)` carries `c` at offset 0 and the big-endian unsigned
32-bit reading of its four payload bytes is again `p` (the `0xFF0000FF` mask
on the low byte is corrected by the `Uint8Array` modulo-256 store). -/
theorem frame_encode_decode_roundtrip (c p : Nat) (hc : c < 256) (hp : p < 2 ^ 32) :
    (sendToDeviceBytes c (p : Int)).getD 0 0 = c ∧
    beUnsigned32 ((sendToDeviceBytes c (p : Int)).getD 1 0)
      ((sendToDeviceBytes c (p : Int)).getD 2 0)
      ((sendToDeviceBytes c (p : Int)).getD 3 0)
      ((sendToDeviceBytes c (p : Int)).getD 4 0) = p := by
  unfold sendToDeviceBytes
  simp only [List.getD_cons_zero, List.getD_cons_succ]
  refine ⟨Nat.mod_eq_of_lt hc, ?_⟩
  rw [sendTo_byte1 p hp, sendTo_byte2 p hp, sendTo_byte3 p hp, sendTo_byte4 p hp]
  unfold beUnsigned32
  omega

/-- C3 witness: the round trip at command 173 and payload 0xFEDCBA98
(high bit set, exercising the sign-propagating shift). -/
theorem frame_encode_decode_roundtrip_witness :
    (173 : Nat) < 256 ∧ (4275878552 : Nat) < 2 ^ 32 ∧
    ((sendToDeviceBytes 173 ((4275878552 : Nat) : Int)).getD 0 0 = 173 ∧
      beUnsigned32 ((sendToDeviceBytes 173 ((4275878552 : Nat) : Int)).getD 1 0)
        ((sendToDeviceBytes 173 ((4275878552 : Nat) : Int)).getD 2 0)
        ((sendToDeviceBytes 173 ((4275878552 : Nat) : Int)).getD 3 0)
        ((sendToDeviceBytes 173 ((4275878552 : Nat) : Int)).getD 4 0) = 4275878552) :=
  ⟨by decide, by decide, frame_encode_decode_roundtrip 173 4275878552 (by decide) (by decide)⟩

/-- C4 (amended): for every `maxLen L > 0` and every non-empty string whose
characters the chunking pattern matches (no U+2028/U+2029), `_splitByLength`
returns chunks of length at most `L` that rejoin to exactly the input, and
reassembling the chunks of a separator-appended message (separator not
occurring in the message) recovers the message. -/
theorem splitByLength_chunks_rejoin (s M : List Char) (sep : Char) (L : Nat)
    (hL : 1 ≤ L) (hs : s ≠ []) (hsm : ∀ c ∈ s, matchableChar c)
    (hMm : ∀ c ∈ M, matchableChar c) (hsep : matchableChar sep) (hnsep : sep ∉ M) :
    (∃ chunks, splitByLength s L = some chunks ∧ chunks.flatten = s ∧
      ∀ ch ∈ chunks, ch.length ≤ L) ∧
    (∃ chunks, splitByLength (M ++ [sep]) L = some chunks ∧
      reassemble sep chunks.flatten = ([], [M])) := by
  refine ⟨splitByLength_spec s L hL hs hsm, ?_⟩
  have hMsep : ∀ c ∈ M ++ [sep], matchableChar c := by
    intro c hc
    rcases List.mem_append.mp hc with h | h
    · exact hMm c h
    · rw [List.mem_singleton.mp h]
      exact hsep
  obtain ⟨chunks, h1, h2, _⟩ := splitByLength_spec (M ++ [sep]) L hL (by simp) hMsep
  exact ⟨chunks, h1, by rw [h2]; exact reassemble_roundtrip sep M hnsep⟩

/-- C4 witness: splitting `"abc"` at `L = 2` and round-tripping the message
`"hi"` with separator `"\n"`. -/
theorem splitByLength_chunks_rejoin_witness :
    (∃ chunks, splitByLength ['a', 'b', 'c'] 2 = some chunks ∧
      chunks.flatten = ['a', 'b', 'c'] ∧ ∀ ch ∈ chunks, ch.length ≤ 2) ∧
    (∃ chunks, splitByLength (['h', 'i'] ++ ['\n']) 2 = some chunks ∧
      reassemble '\n' chunks.flatten = ([], [['h', 'i']])) :=
  splitByLength_chunks_rejoin ['a', 'b', 'c'] ['h', 'i'] '\n' 2
    (by decide) (by decide) (by decide) (by decide) (by decide) (by decide)

/-- C4 counterexample: `_splitByLength` is not chunk-returning and
concatenation-preserving on every string — on the empty string `match`
returns `null`, and a U+2028 character is silently dropped, so the chunks
do not rejoin to the input. -/
theorem splitByLength_not_total :
    splitByLength [] 20 = none ∧
    splitByLength ['a', ' ', 'b'] 20 = some [['a'], ['b']] ∧
    [['a'], ['b']].flatten ≠ ['a', ' ', 'b'] := by decide

/-- C5: evaluating the connect sequence at the failing input — a synchronous
throw from `navigator.bluetooth.requestDevice` — shows the failure is not
propagated as a rejection: the catch inside `_requestBluetoothDevice`
swallows it and `connect()` raises a `TypeError` instead, while a rejected
request promise (the asynchronous case) is propagated correctly. -/
theorem connect_sync_request_failure_not_propagated :
    connect (RequestDeviceOutcome.syncThrow "SecurityError") none =
      ConnectResult.syncThrow "TypeError: undefined has no method then" ∧
    (∀ e later, connect (RequestDeviceOutcome.syncThrow e) later ≠ ConnectResult.rejected e) ∧
    (∀ e later, connect (RequestDeviceOutcome.rejects e) later = ConnectResult.rejected e) := by
  refine ⟨rfl, ?_, ?_⟩
  · intro e later
    simp [connect, connectToDevice, requestBluetoothDevice]
  · intro e later
    cases later <;> rfl

/-- C6: `send(x)` rejects immediately with the validation error — before any
transport interaction — exactly when `x` is empty after the code's coercion
`String(x || '')`, equivalently exactly when `x` is falsy; in particular
`send('')` and `send(null)` both reject this way. -/
theorem send_validationError_iff (x : JsVal) (hasChar : Bool) (sep : Char) :
    (send x hasChar sep = SendOutcome.validationError ↔ sendCoerce x = "") ∧
    (send x hasChar sep = SendOutcome.validationError ↔ jsFalsy x = true) ∧
    send (JsVal.str "") hasChar sep = SendOutcome.validationError ∧
    send JsVal.null hasChar sep = SendOutcome.validationError := by
  have key : ∀ y : JsVal, (send y hasChar sep = SendOutcome.validationError ↔
      sendCoerce y = "") := by
    intro y
    unfold send
    by_cases h : sendCoerce y = ""
    · simp [h]
    · rw [if_neg h]
      simp only [h, iff_false]
      by_cases hc : hasChar
      · simp only [hc, Bool.not_true, Bool.false_eq_true, if_false]
        cases splitByLength ((sendCoerce y).toList ++ [sep]) 20 <;> simp
      · simp only [Bool.not_eq_true] at hc
        simp [hc]
  refine ⟨key x, (key x).trans (sendCoerce_empty_iff x), ?_, ?_⟩
  · exact (key (JsVal.str "")).mpr (by decide)
  · exact (key JsVal.null).mpr (by decide)

/-- C7: for a message whose chunks are written by the promise chain of
`send`, the chunks handed to the transport always form an initial segment
written strictly in sequence — chunk `s+1` only after chunk `s`'s write
resolved — and if the cached characteristic is gone when step `j` runs
(after successful earlier writes), the chain rejects with the disconnected
error having written exactly chunks `0..j-1`. -/
theorem writeChain_sequential_and_disconnect (cp wo : Nat → Bool) (n j : Nat)
    (hj : 1 ≤ j) (hjn : j < n)
    (hprev : ∀ m, m < j → 1 ≤ m → cp m = true ∧ wo m = true)
    (hw0 : wo 0 = true) (hcpj : cp j = false) :
    writeChain cp wo n = (List.range j, ChainResult.rejectedDisconnected) ∧
    (∀ cp2 wo2 : Nat → Bool, ∀ n2 : Nat, ∃ t, t ≤ n2 ∧
      (writeChain cp2 wo2 n2).1 = List.range t ∧ ∀ s, s + 1 < t → wo2 s = true) :=
  ⟨writeChain_disconnect_core cp wo n j hj hjn hprev hw0 hcpj,
    fun cp2 wo2 n2 => writeChain_shape cp2 wo2 n2⟩

/-- C7 witness: four chunks, characteristic vanishing before step 2 — the
chain writes chunks 0 and 1 and rejects disconnected. -/
theorem writeChain_sequential_and_disconnect_witness :
    writeChain (fun i => decide (i < 2)) (fun _ => true) 4 =
      (List.range 2, ChainResult.rejectedDisconnected) :=
  (writeChain_sequential_and_disconnect (fun i => decide (i < 2)) (fun _ => true) 4 2
    (by decide) (by decide) (by decide) (by decide) (by decide)).1

/-- C8: a decoded frame whose marker byte is not 253 leaves the device state
(deviceId and rfIdNumber) unchanged and writes no bytes back. -/
theorem dispatcher_ignores_non_253_marker (command : Nat) (data : JsVal) (marker : Nat)
    (st : TerminalState) (h : marker ≠ 253) :
    connectionDataReceive command data marker st = (st, []) := by
  unfold connectionDataReceive
  rw [if_pos h]

/-- C8 witness: a device-id frame with the outbound marker 254 is discarded. -/
theorem dispatcher_ignores_non_253_marker_witness :
    connectionDataReceive 21 (JsVal.num 7) 254 initialTerminalState =
      (initialTerminalState, []) :=
  dispatcher_ignores_non_253_marker 21 (JsVal.num 7) 254 initialTerminalState (by decide)

/-- C9: with marker 253, commands 41, 42, 43 and 44 each produce exactly one
reply frame carrying the same command byte and big-endian payloads 1 (tap
side), 2000 (volume in ml), 100 (price in cents) and 1000 (user amount in
cents) respectively, leaving the device state unchanged. -/
theorem dispatcher_query_replies (data : JsVal) (st : TerminalState) :
    (connectionDataReceive 41 data 253 st = (st, [[41, 0, 0, 0, 1, 0, 0, 0, 0, 254, 10]]) ∧
      connectionDataReceive 42 data 253 st = (st, [[42, 0, 0, 7, 208, 0, 0, 0, 0, 254, 10]]) ∧
      connectionDataReceive 43 data 253 st = (st, [[43, 0, 0, 0, 100, 0, 0, 0, 0, 254, 10]]) ∧
      connectionDataReceive 44 data 253 st = (st, [[44, 0, 0, 3, 232, 0, 0, 0, 0, 254, 10]])) ∧
    beUnsigned32 0 0 0 1 = 1 ∧ beUnsigned32 0 0 7 208 = 2000 ∧
    beUnsigned32 0 0 0 100 = 100 ∧ beUnsigned32 0 0 3 232 = 1000 := by
  have e41 : sendToDeviceBytes 41 1 = [41, 0, 0, 0, 1, 0, 0, 0, 0, 254, 10] := by decide
  have e42 : sendToDeviceBytes 42 2000 = [42, 0, 0, 7, 208, 0, 0, 0, 0, 254, 10] := by decide
  have e43 : sendToDeviceBytes 43 100 = [43, 0, 0, 0, 100, 0, 0, 0, 0, 254, 10] := by decide
  have e44 : sendToDeviceBytes 44 1000 = [44, 0, 0, 3, 232, 0, 0, 0, 0, 254, 10] := by decide
  refine ⟨⟨?_, ?_, ?_, ?_⟩, by decide, by decide, by decide, by decide⟩ <;>
    simp [connectionDataReceive, e41, e42, e43, e44]

/-- C10: a frame with command 31 and marker 253 stores the decoded payload
as `_rfIdNumber` and writes no reply at all, because `checkRFIDExists()`
constantly returns `true`, making the payload-0 reply branch unreachable. -/
theorem dispatcher_rfid_stores_no_reply (data : JsVal) (st : TerminalState) :
    connectionDataReceive 31 data 253 st = ({ st with rfIdNumber := data }, []) ∧
    checkRFIDExists = true := by
  refine ⟨?_, rfl⟩
  simp [connectionDataReceive, checkRFIDExists]

end BluetoothTerminal
